import Mathlib

/-!
Verification of the Ensemble STT Server (src/server/server.py) against its
natural-language specification.

The server is a FastAPI application with one WebSocket endpoint
(`websocket_endpoint` at `/ws/stt`), a health endpoint (`health_check` at
`/health`), and a global engine registry `models` that `load_models` leaves
untouched (the implementation is an explicit simulation mock).

The embedding below models:
- JSON values (the shape `json.loads` produces) as the inductive `Json`;
- Python's `dict.get` (last duplicate key wins, as in `json.loads`) as
  `dictGet` / `getSpeaker`;
- the per-cycle WebSocket protocol as a step function `runLoop` over a finite
  trace of incoming transport events, returning the list of frames the server
  sends plus the final session status.  `json.loads` is Python stdlib, not
  repository code, so it is an explicit function parameter `loads` of the
  loop; theorems quantify over it.
-/

namespace EnsembleSTT

/-- JSON values, the codomain of `json.loads`.  Numbers are modelled as
integers (no claim exercises fractional metadata values). -/
inductive Json where
  | null : Json
  | bool (b : Bool) : Json
  | num (n : Int) : Json
  | str (s : String) : Json
  | arr (elems : List Json) : Json
  | obj (fields : List (String × Json)) : Json
deriving Repr

/-- The global engine registry from `server.py`:
`models = {"sensevoice": None, "faster_whisper": None, "qwen_asr": None}`.
An engine slot holds `none` when no engine is loaded. -/
def initialModels : List (String × Option Unit) :=
  [("sensevoice", none), ("faster_whisper", none), ("qwen_asr", none)]

/-- `load_models` from `server.py`: the body only logs; the real loading code
is commented out, so the registry is returned unchanged. -/
def load_models (m : List (String × Option Unit)) : List (String × Option Unit) :=
  m

/-- Whether at least one recognition engine is loaded in the registry. -/
def anyEngineLoaded (m : List (String × Option Unit)) : Bool :=
  m.any (fun p => p.2.isSome)

/-- The JSON body returned by `GET /health` (`health_check` in `server.py`). -/
structure HealthResponse where
  status : String
  message : String
  models : List String
deriving Repr, DecidableEq

/-- `health_check` from `server.py`: returns a constant body; it does not
consult the engine registry. -/
def health_check : HealthResponse :=
  { status := "healthy"
  , message := "Ensemble STT Server is running (Simulation Mode)"
  , models := ["SenseVoice-Small", "Faster-Whisper", "Qwen3-ASR"] }

/-- The `data` object of the `ensemble_result` response frame built in
`websocket_endpoint`.  `confidence` is the Python float literal `0.95`,
modelled exactly as the rational 0.95 (it is never computed with). -/
structure ResponseData where
  finalText : String
  senseVoice : String
  fasterWhisper : String
  qwenASR : String
  speaker : Json
  confidence : Rat
  events : List Json
deriving Repr

/-- The response construction in `websocket_endpoint`: depends only on
`len(audio_bytes)` and the extracted speaker value. -/
def mkResponseData (audioLen : Nat) (speaker : Json) : ResponseData :=
  { finalText := "Server processed " ++ toString audioLen ++ " bytes of audio."
  , senseVoice := "SenseVoice prediction"
  , fasterWhisper := "Faster-Whisper prediction"
  , qwenASR := "Qwen3-ASR prediction"
  , speaker := speaker
  , confidence := (0.95 : Rat)
  , events := [] }

/-- A frame sent by the server: either the `ensemble_result` success frame or
the `error` frame from the exception handler
(`type: "error"`, `code: "processing_error"`, `message: str(e)`). -/
inductive OutFrame where
  | ensembleResult (data : ResponseData) : OutFrame
  | errorFrame (code : String) (message : String) : OutFrame
deriving Repr

/-- The wire-level `type` field of an outgoing frame. -/
def frameType : OutFrame → String
  | .ensembleResult _ => "ensemble_result"
  | .errorFrame _ _ => "error"

/-- Python `dict` lookup for a dict built by `json.loads`: when a key is
repeated, the last occurrence wins. -/
def dictGet (fields : List (String × Json)) (key : String) : Option Json :=
  match fields with
  | [] => none
  | (k, v) :: rest =>
    match dictGet rest key with
    | some w => some w
    | none => if k = key then some v else none

/-- `metadata.get("speaker", "unknown")` from `websocket_endpoint`.
On a non-dict JSON value Python raises `AttributeError` (a generic
exception), modelled as the `.error` case. -/
def getSpeaker : Json → Except String Json
  | .obj fields => .ok ((dictGet fields "speaker").getD (.str "unknown"))
  | _ => .error "AttributeError: object has no attribute get"

/-- Incoming transport events observed by the connection handler. -/
inductive InEvent where
  | textFrame (s : String) : InEvent
  | bytesFrame (payload : List Nat) : InEvent
  | disconnect : InEvent
deriving Repr

/-- Final status of the session loop on a finite trace. `awaitingMetadata` /
`awaitingAudio` mean the trace is exhausted with the handler suspended on the
corresponding receive; `closedDisconnect` is the `WebSocketDisconnect` branch;
`closedError` is the generic `except Exception` branch (which ends the loop,
since the `try` wraps the whole `while True`). -/
inductive SessionStatus where
  | awaitingMetadata : SessionStatus
  | awaitingAudio : SessionStatus
  | closedDisconnect : SessionStatus
  | closedError : SessionStatus
deriving Repr, DecidableEq

/-- The best-effort error-frame send in the generic exception handler:
`websocket.send_json(\x7b"type": "error", ...\x7d)` wrapped in a bare
`try/except: pass`.  `sendOk` says whether that send itself succeeds; when it
fails the failure is swallowed and no frame is delivered. -/
def bestEffortErrorFrames (sendOk : Bool) (msg : String) : List OutFrame :=
  if sendOk then [.errorFrame "processing_error" msg] else []

/-- Message of the exception raised when `receive_text` gets a binary frame. -/
def textExpectedMsg : String := "expected text frame, received bytes"

/-- Message of the exception raised when `receive_bytes` gets a text frame. -/
def bytesExpectedMsg : String := "expected bytes frame, received text"

/-- Timeout applied to the metadata receive in `websocket_endpoint`: the code
is a bare `await websocket.receive_text()` with no `asyncio.wait_for`
wrapper, so no bounded wait is configured. -/
def metadataReceiveTimeout : Option Nat := none

/-- Timeout applied to the audio receive: likewise a bare
`await websocket.receive_bytes()`. -/
def audioReceiveTimeout : Option Nat := none

/-- The session loop of `websocket_endpoint`, run over a finite trace of
incoming events.  `loads` models `json.loads` (stdlib, not repository code):
`.ok` is a parsed value, `.error` carries `str(e)` of the raised exception.
Per cycle: receive a text frame, parse it, receive a binary frame, build the
response from the audio byte length and the metadata speaker, send it, loop.
`WebSocketDisconnect` at any receive ends the loop cleanly; any other
exception sends a best-effort error frame and ends the loop. -/
def runLoop (loads : String → Except String Json) (sendOk : Bool) :
    List InEvent → List OutFrame × SessionStatus
  | [] => ([], .awaitingMetadata)
  | .disconnect :: _ => ([], .closedDisconnect)
  | .bytesFrame _ :: _ => (bestEffortErrorFrames sendOk textExpectedMsg, .closedError)
  | [.textFrame s] =>
    match loads s with
    | .error e => (bestEffortErrorFrames sendOk e, .closedError)
    | .ok _ => ([], .awaitingAudio)
  | .textFrame s :: .disconnect :: _ =>
    match loads s with
    | .error e => (bestEffortErrorFrames sendOk e, .closedError)
    | .ok _ => ([], .closedDisconnect)
  | .textFrame s :: .textFrame _ :: _ =>
    match loads s with
    | .error e => (bestEffortErrorFrames sendOk e, .closedError)
    | .ok _ => (bestEffortErrorFrames sendOk bytesExpectedMsg, .closedError)
  | .textFrame s :: .bytesFrame b :: rest =>
    match loads s with
    | .error e => (bestEffortErrorFrames sendOk e, .closedError)
    | .ok meta =>
      match getSpeaker meta with
      | .error e => (bestEffortErrorFrames sendOk e, .closedError)
      | .ok spk =>
        let tail := runLoop loads sendOk rest
        (OutFrame.ensembleResult (mkResponseData b.length spk) :: tail.1, tail.2)

/-- A concrete instance of the `loads` parameter used for witnesses and
counterexamples, matching `json.loads` on the few strings it is applied to
(an empty object, an object with a speaker, an array, and a non-JSON string). -/
def sampleLoads : String → Except String Json :=
  fun s =>
    if s = "\x7b\x7d" then .ok (.obj [])
    else if s = "\x7b\"speaker\": \"Alice\"\x7d" then .ok (.obj [("speaker", .str "Alice")])
    else if s = "[]" then .ok (.arr [])
    else .error "Expecting value: line 1 column 1 (char 0)"


/-! ### Shared lemmas about the session loop -/

/-- A valid cycle (parse succeeds, speaker extraction succeeds) prepends one
`ensemble_result` frame and continues the loop on the remaining trace. -/
theorem cycle_success (loads : String → Except String Json) (sendOk : Bool)
    (s : String) (meta spk : Json) (b : List Nat) (rest : List InEvent)
    (h1 : loads s = .ok meta) (h2 : getSpeaker meta = .ok spk) :
    runLoop loads sendOk (.textFrame s :: .bytesFrame b :: rest) =
      (OutFrame.ensembleResult (mkResponseData b.length spk) :: (runLoop loads sendOk rest).1,
       (runLoop loads sendOk rest).2) := by
  simp [runLoop, h1, h2]

/-- A parse failure of the metadata frame ends the loop with status
`closedError` after a best-effort error frame, whatever events follow. -/
theorem loads_error_ends (loads : String → Except String Json) (sendOk : Bool)
    (s e : String) (rest : List InEvent) (h : loads s = .error e) :
    runLoop loads sendOk (.textFrame s :: rest) =
      (bestEffortErrorFrames sendOk e, .closedError) := by
  cases rest with
  | nil => simp [runLoop, h]
  | cons hd tl => cases hd <;> simp [runLoop, h]

/-- A disconnect between the metadata frame and the audio frame ends the loop
cleanly. -/
theorem disconnect_mid (loads : String → Except String Json) (sendOk : Bool)
    (s : String) (meta : Json) (rest : List InEvent) (h : loads s = .ok meta) :
    runLoop loads sendOk (.textFrame s :: .disconnect :: rest) = ([], .closedDisconnect) := by
  simp [runLoop, h]

/-- The synthesized final text is never the empty string. -/
theorem finalText_ne_empty (n : Nat) (spk : Json) :
    (mkResponseData n spk).finalText ≠ "" := by
  intro h
  have := congrArg String.length h
  simp [mkResponseData, String.length_append] at this
  exact absurd this.1.1 (by decide)

/-! ### Claims -/

/-- C1 (counterexample): the claim says that with no engine loaded every cycle
yields exactly one frame of type "error".  On the code, with no engine loaded
(`load_models` loads nothing), a concrete valid cycle yields one
"ensemble_result" frame — not an "error" frame — and the loop continues. -/
theorem C1_counterexample :
    anyEngineLoaded (load_models initialModels) = false ∧
    runLoop sampleLoads true [.textFrame "\x7b\x7d", .bytesFrame [0, 1, 2]] =
      ([.ensembleResult (mkResponseData 3 (.str "unknown"))], .awaitingMetadata) ∧
    frameType (.ensembleResult (mkResponseData 3 (.str "unknown"))) ≠ "error" :=
  ⟨rfl, rfl, by decide⟩

/-- C1 (amended): the handler never consults the engine registry; with no
engine loaded, every valid cycle still yields exactly one frame, of type
"ensemble_result", and the session loop continues on the remaining trace. -/
theorem C1_amended_thm (loads : String → Except String Json) (sendOk : Bool)
    (s : String) (meta spk : Json) (b : List Nat) (rest : List InEvent)
    (h1 : loads s = .ok meta) (h2 : getSpeaker meta = .ok spk) :
    anyEngineLoaded (load_models initialModels) = false ∧
    runLoop loads sendOk (.textFrame s :: .bytesFrame b :: rest) =
      (OutFrame.ensembleResult (mkResponseData b.length spk) :: (runLoop loads sendOk rest).1,
       (runLoop loads sendOk rest).2) ∧
    frameType (OutFrame.ensembleResult (mkResponseData b.length spk)) = "ensemble_result" :=
  ⟨rfl, cycle_success loads sendOk s meta spk b rest h1 h2, rfl⟩

/-- C1 (witness): the amended theorem instantiated at a concrete cycle. -/
theorem C1_witness :
    sampleLoads "\x7b\x7d" = .ok (.obj []) ∧
    getSpeaker (.obj []) = .ok (.str "unknown") ∧
    (anyEngineLoaded (load_models initialModels) = false ∧
     runLoop sampleLoads true [.textFrame "\x7b\x7d", .bytesFrame [9]] =
       (OutFrame.ensembleResult (mkResponseData 1 (.str "unknown")) ::
          (runLoop sampleLoads true []).1,
        (runLoop sampleLoads true []).2) ∧
     frameType (OutFrame.ensembleResult (mkResponseData 1 (.str "unknown"))) =
       "ensemble_result") :=
  ⟨rfl, rfl,
   C1_amended_thm sampleLoads true "\x7b\x7d" (.obj []) (.str "unknown") [9] [] rfl rfl⟩

/-- C2 (counterexample): the claim says a malformed metadata frame is reported
and the session continues.  On the code, on a concrete trace with a malformed
frame followed by a perfectly valid cycle, the loop ends with `closedError`
and the valid cycle is never processed (only the error frame is sent). -/
theorem C2_counterexample :
    sampleLoads "not json" = .error "Expecting value: line 1 column 1 (char 0)" ∧
    runLoop sampleLoads true
      [.textFrame "not json", .textFrame "\x7b\x7d", .bytesFrame [0]] =
      ([.errorFrame "processing_error" "Expecting value: line 1 column 1 (char 0)"],
       .closedError) ∧
    SessionStatus.closedError ≠ .awaitingMetadata :=
  ⟨rfl, rfl, by decide⟩

/-- C2 (amended): a malformed metadata frame yields one best-effort error
frame and then ends the session loop (the `try` wraps the whole `while`, so
the exception is session-terminal), rather than continuing the receive loop. -/
theorem C2_amended_thm (loads : String → Except String Json) (sendOk : Bool)
    (s e : String) (rest : List InEvent) (h : loads s = .error e) :
    runLoop loads sendOk (.textFrame s :: rest) =
      (bestEffortErrorFrames sendOk e, .closedError) ∧
    runLoop loads true (.textFrame s :: rest) =
      ([.errorFrame "processing_error" e], .closedError) :=
  ⟨loads_error_ends loads sendOk s e rest h, by
    simpa [bestEffortErrorFrames] using loads_error_ends loads true s e rest h⟩

/-- C2 (witness): the amended theorem instantiated at a concrete malformed
frame. -/
theorem C2_witness :
    sampleLoads "not json" = .error "Expecting value: line 1 column 1 (char 0)" ∧
    (runLoop sampleLoads false [.textFrame "not json"] =
      (bestEffortErrorFrames false "Expecting value: line 1 column 1 (char 0)",
       .closedError) ∧
     runLoop sampleLoads true [.textFrame "not json"] =
      ([.errorFrame "processing_error" "Expecting value: line 1 column 1 (char 0)"],
       .closedError)) :=
  ⟨rfl, C2_amended_thm sampleLoads false "not json"
    "Expecting value: line 1 column 1 (char 0)" [] rfl⟩

/-- C3: per completed cycle the server sends exactly zero or one frame, and
zero exactly when the final text is empty; since the synthesized text is
never empty, every completed cycle sends exactly one frame. -/
theorem C3_thm (loads : String → Except String Json) (sendOk : Bool)
    (s : String) (meta spk : Json) (b : List Nat) (rest : List InEvent)
    (h1 : loads s = .ok meta) (h2 : getSpeaker meta = .ok spk) :
    (runLoop loads sendOk (.textFrame s :: .bytesFrame b :: rest)).1 =
      OutFrame.ensembleResult (mkResponseData b.length spk) :: (runLoop loads sendOk rest).1 ∧
    [OutFrame.ensembleResult (mkResponseData b.length spk)].length ≤ 1 ∧
    ([OutFrame.ensembleResult (mkResponseData b.length spk)].length = 0 ↔
      (mkResponseData b.length spk).finalText = "") := by
  refine ⟨by rw [cycle_success loads sendOk s meta spk b rest h1 h2], by simp, ?_⟩
  constructor
  · intro h
    simp at h
  · intro h
    exact absurd h (finalText_ne_empty _ _)

/-- C3 (witness): instantiated at a concrete cycle. -/
theorem C3_witness :
    sampleLoads "\x7b\x7d" = .ok (.obj []) ∧
    getSpeaker (.obj []) = .ok (.str "unknown") ∧
    ((runLoop sampleLoads true [.textFrame "\x7b\x7d", .bytesFrame [1, 2]]).1 =
      OutFrame.ensembleResult (mkResponseData 2 (.str "unknown")) ::
        (runLoop sampleLoads true []).1 ∧
     [OutFrame.ensembleResult (mkResponseData 2 (.str "unknown"))].length ≤ 1 ∧
     ([OutFrame.ensembleResult (mkResponseData 2 (.str "unknown"))].length = 0 ↔
       (mkResponseData 2 (.str "unknown")).finalText = "")) :=
  ⟨rfl, rfl,
   C3_thm sampleLoads true "\x7b\x7d" (.obj []) (.str "unknown") [1, 2] [] rfl rfl⟩
/-- C4 (counterexample): the claim says the metadata receive applies a bounded
wait of about 10 seconds.  The code is a bare `await websocket.receive_text()`
with no `asyncio.wait_for` wrapper: no timeout is configured at all. -/
theorem C4_counterexample :
    metadataReceiveTimeout = none ∧ metadataReceiveTimeout ≠ some 10 :=
  ⟨rfl, by simp [metadataReceiveTimeout]⟩

/-- C4 (amended): the metadata receive applies no bounded wait (it blocks
indefinitely), so a wait expiry never occurs; while no frame arrives the
session simply remains in the awaiting-metadata state (not closed, no error
reported) and still processes a metadata-and-audio pair whenever one arrives. -/
theorem C4_amended_thm (loads : String → Except String Json) (sendOk : Bool)
    (s : String) (meta spk : Json) (b : List Nat)
    (h1 : loads s = .ok meta) (h2 : getSpeaker meta = .ok spk) :
    metadataReceiveTimeout = none ∧
    runLoop loads sendOk [] = ([], .awaitingMetadata) ∧
    runLoop loads sendOk [.textFrame s, .bytesFrame b] =
      ([OutFrame.ensembleResult (mkResponseData b.length spk)], .awaitingMetadata) := by
  refine ⟨rfl, rfl, ?_⟩
  simpa [runLoop] using cycle_success loads sendOk s meta spk b [] h1 h2

/-- C4 (witness): the amended theorem instantiated at a concrete late cycle. -/
theorem C4_witness :
    sampleLoads "\x7b\x7d" = .ok (.obj []) ∧
    getSpeaker (.obj []) = .ok (.str "unknown") ∧
    (metadataReceiveTimeout = none ∧
     runLoop sampleLoads true [] = ([], .awaitingMetadata) ∧
     runLoop sampleLoads true [.textFrame "\x7b\x7d", .bytesFrame [3, 4, 5]] =
       ([OutFrame.ensembleResult (mkResponseData 3 (.str "unknown"))], .awaitingMetadata)) :=
  ⟨rfl, rfl,
   C4_amended_thm sampleLoads true "\x7b\x7d" (.obj []) (.str "unknown") [3, 4, 5] rfl rfl⟩

/-- C5 (counterexample): the claim says /health reports a non-"healthy"
degraded signal when no engine is loaded.  On the code no engine is ever
loaded, yet `health_check` still reports status "healthy". -/
theorem C5_counterexample :
    anyEngineLoaded (load_models initialModels) = false ∧
    health_check.status = "healthy" :=
  ⟨rfl, rfl⟩

/-- C5 (amended): GET /health unconditionally reports status "healthy" (with
a fixed simulation-mode message and a fixed model-name list); it never
consults the engine registry, so the signal is "healthy" even though no
engine is loaded. -/
theorem C5_amended_thm :
    health_check.status = "healthy" ∧
    health_check.message = "Ensemble STT Server is running (Simulation Mode)" ∧
    health_check.models = ["SenseVoice-Small", "Faster-Whisper", "Qwen3-ASR"] ∧
    anyEngineLoaded (load_models initialModels) = false :=
  ⟨rfl, rfl, rfl, rfl⟩

/-- C6: every success frame's data has the synthesized string `finalText` and
a `speaker` field equal to the value submitted under the metadata key
"speaker", or the string "unknown" when that key is absent. -/
theorem C6_thm (loads : String → Except String Json) (sendOk : Bool)
    (s : String) (fields : List (String × Json)) (b : List Nat) (rest : List InEvent)
    (h : loads s = .ok (.obj fields)) :
    (runLoop loads sendOk (.textFrame s :: .bytesFrame b :: rest)).1 =
      OutFrame.ensembleResult
        (mkResponseData b.length ((dictGet fields "speaker").getD (.str "unknown"))) ::
        (runLoop loads sendOk rest).1 ∧
    (mkResponseData b.length ((dictGet fields "speaker").getD (.str "unknown"))).speaker =
      (dictGet fields "speaker").getD (.str "unknown") ∧
    (∀ v, dictGet fields "speaker" = some v →
      (mkResponseData b.length ((dictGet fields "speaker").getD (.str "unknown"))).speaker = v) ∧
    (dictGet fields "speaker" = none →
      (mkResponseData b.length ((dictGet fields "speaker").getD (.str "unknown"))).speaker =
        Json.str "unknown") := by
  refine ⟨?_, rfl, ?_, ?_⟩
  · rw [cycle_success loads sendOk s (.obj fields)
      ((dictGet fields "speaker").getD (.str "unknown")) b rest h rfl]
  · intro v hv
    simp [mkResponseData, hv]
  · intro hv
    simp [mkResponseData, hv]

/-- C6 (witness): instantiated at a concrete cycle whose metadata carries a
speaker value. -/
theorem C6_witness :
    sampleLoads "\x7b\"speaker\": \"Alice\"\x7d" =
      .ok (.obj [("speaker", .str "Alice")]) ∧
    ((runLoop sampleLoads true
        [.textFrame "\x7b\"speaker\": \"Alice\"\x7d", .bytesFrame [1]]).1 =
      OutFrame.ensembleResult
        (mkResponseData 1
          ((dictGet [("speaker", .str "Alice")] "speaker").getD (.str "unknown"))) ::
        (runLoop sampleLoads true []).1 ∧
     (mkResponseData 1
        ((dictGet [("speaker", .str "Alice")] "speaker").getD (.str "unknown"))).speaker =
      (dictGet [("speaker", .str "Alice")] "speaker").getD (.str "unknown") ∧
     (∀ v, dictGet [("speaker", .str "Alice")] "speaker" = some v →
       (mkResponseData 1
          ((dictGet [("speaker", .str "Alice")] "speaker").getD (.str "unknown"))).speaker =
         v) ∧
     (dictGet [("speaker", .str "Alice")] "speaker" = none →
       (mkResponseData 1
          ((dictGet [("speaker", .str "Alice")] "speaker").getD (.str "unknown"))).speaker =
         Json.str "unknown")) :=
  ⟨rfl, C6_thm sampleLoads true "\x7b\"speaker\": \"Alice\"\x7d"
    [("speaker", .str "Alice")] [1] [] rfl⟩

/-- C7: with engines unavailable (none is ever loaded), the final text of the
ensemble response synthesizes the byte length of the processed audio: for an
n-byte payload it reads "Server processed n bytes of audio.". -/
theorem C7_thm (loads : String → Except String Json) (sendOk : Bool)
    (s : String) (meta spk : Json) (b : List Nat) (rest : List InEvent)
    (h1 : loads s = .ok meta) (h2 : getSpeaker meta = .ok spk) :
    anyEngineLoaded (load_models initialModels) = false ∧
    (runLoop loads sendOk (.textFrame s :: .bytesFrame b :: rest)).1 =
      OutFrame.ensembleResult (mkResponseData b.length spk) :: (runLoop loads sendOk rest).1 ∧
    (mkResponseData b.length spk).finalText =
      "Server processed " ++ toString b.length ++ " bytes of audio." :=
  ⟨rfl, by rw [cycle_success loads sendOk s meta spk b rest h1 h2], rfl⟩

/-- C7 (witness): instantiated at a concrete 4-byte payload. -/
theorem C7_witness :
    sampleLoads "\x7b\x7d" = .ok (.obj []) ∧
    getSpeaker (.obj []) = .ok (.str "unknown") ∧
    (anyEngineLoaded (load_models initialModels) = false ∧
     (runLoop sampleLoads true [.textFrame "\x7b\x7d", .bytesFrame [1, 2, 3, 4]]).1 =
       OutFrame.ensembleResult (mkResponseData 4 (.str "unknown")) ::
         (runLoop sampleLoads true []).1 ∧
     (mkResponseData 4 (.str "unknown")).finalText =
       "Server processed " ++ toString 4 ++ " bytes of audio.") :=
  ⟨rfl, rfl,
   C7_thm sampleLoads true "\x7b\x7d" (.obj []) (.str "unknown") [1, 2, 3, 4] [] rfl rfl⟩

/-- C8: a transport-level disconnect at any receive point — while awaiting
metadata, or mid-cycle after metadata and before audio — ends the loop
cleanly: status `closedDisconnect` (not the error status), with no frame of
any kind emitted. -/
theorem C8_thm (loads : String → Except String Json) (sendOk : Bool)
    (s : String) (meta : Json) (rest rest2 : List InEvent) (h : loads s = .ok meta) :
    runLoop loads sendOk (.disconnect :: rest) = ([], .closedDisconnect) ∧
    runLoop loads sendOk (.textFrame s :: .disconnect :: rest2) = ([], .closedDisconnect) ∧
    SessionStatus.closedDisconnect ≠ .closedError :=
  ⟨rfl, disconnect_mid loads sendOk s meta rest2 h, by decide⟩

/-- C8 (witness): instantiated at a concrete mid-cycle disconnect. -/
theorem C8_witness :
    sampleLoads "\x7b\x7d" = .ok (.obj []) ∧
    (runLoop sampleLoads true [.disconnect] = ([], .closedDisconnect) ∧
     runLoop sampleLoads true [.textFrame "\x7b\x7d", .disconnect] =
       ([], .closedDisconnect) ∧
     SessionStatus.closedDisconnect ≠ .closedError) :=
  ⟨rfl, C8_thm sampleLoads true "\x7b\x7d" (.obj []) [] [] rfl⟩

/-- C9: any non-disconnect exception during a cycle (here: a metadata parse
failure, or a binary frame where text was expected) is caught; a best-effort
"error" frame with the exception message is attempted; when that send itself
fails nothing is delivered but the handler still terminates normally; in all
cases the loop then ends with status `closedError`. -/
theorem C9_thm (loads : String → Except String Json) (s e : String)
    (b : List Nat) (rest rest2 : List InEvent) (h : loads s = .error e) :
    (∀ sendOk, runLoop loads sendOk (.textFrame s :: rest) =
      (bestEffortErrorFrames sendOk e, .closedError)) ∧
    runLoop loads true (.textFrame s :: rest) =
      ([.errorFrame "processing_error" e], .closedError) ∧
    runLoop loads false (.textFrame s :: rest) = ([], .closedError) ∧
    frameType (.errorFrame "processing_error" e) = "error" ∧
    (∀ sendOk, runLoop loads sendOk (.bytesFrame b :: rest2) =
      (bestEffortErrorFrames sendOk textExpectedMsg, .closedError)) := by
  refine ⟨fun sendOk => loads_error_ends loads sendOk s e rest h, ?_, ?_, rfl,
    fun sendOk => rfl⟩
  · simpa [bestEffortErrorFrames] using loads_error_ends loads true s e rest h
  · simpa [bestEffortErrorFrames] using loads_error_ends loads false s e rest h

/-- C9 (witness): instantiated at a concrete parse failure. -/
theorem C9_witness :
    sampleLoads "not json" = .error "Expecting value: line 1 column 1 (char 0)" ∧
    ((∀ sendOk, runLoop sampleLoads sendOk [.textFrame "not json"] =
       (bestEffortErrorFrames sendOk "Expecting value: line 1 column 1 (char 0)",
        .closedError)) ∧
     runLoop sampleLoads true [.textFrame "not json"] =
       ([.errorFrame "processing_error" "Expecting value: line 1 column 1 (char 0)"],
        .closedError) ∧
     runLoop sampleLoads false [.textFrame "not json"] = ([], .closedError) ∧
     frameType (.errorFrame "processing_error" "Expecting value: line 1 column 1 (char 0)") =
       "error" ∧
     (∀ sendOk, runLoop sampleLoads sendOk [.bytesFrame [7]] =
       (bestEffortErrorFrames sendOk textExpectedMsg, .closedError))) :=
  ⟨rfl, C9_thm sampleLoads "not json" "Expecting value: line 1 column 1 (char 0)"
    [7] [] [] rfl⟩

/-- C10: the success frame is a deterministic function of the metadata's
speaker value and the audio byte length only: two cycles agreeing on those
(under possibly different parsers, send flags, payload contents and remaining
traces) produce the same first frame; moreover `finalText` is never empty and
`confidence` is the constant 0.95. -/
theorem C10_thm (loads1 loads2 : String → Except String Json)
    (sendOk1 sendOk2 : Bool) (s1 s2 : String)
    (f1 f2 : List (String × Json)) (b1 b2 : List Nat) (rest1 rest2 : List InEvent)
    (h1 : loads1 s1 = .ok (.obj f1)) (h2 : loads2 s2 = .ok (.obj f2))
    (hspk : dictGet f1 "speaker" = dictGet f2 "speaker")
    (hlen : b1.length = b2.length) :
    (runLoop loads1 sendOk1 (.textFrame s1 :: .bytesFrame b1 :: rest1)).1.head? =
      (runLoop loads2 sendOk2 (.textFrame s2 :: .bytesFrame b2 :: rest2)).1.head? ∧
    (mkResponseData b1.length ((dictGet f1 "speaker").getD (.str "unknown"))).finalText ≠ "" ∧
    (mkResponseData b1.length ((dictGet f1 "speaker").getD (.str "unknown"))).confidence =
      (0.95 : Rat) := by
  refine ⟨?_, finalText_ne_empty _ _, rfl⟩
  rw [cycle_success loads1 sendOk1 s1 (.obj f1)
        ((dictGet f1 "speaker").getD (.str "unknown")) b1 rest1 h1 rfl,
      cycle_success loads2 sendOk2 s2 (.obj f2)
        ((dictGet f2 "speaker").getD (.str "unknown")) b2 rest2 h2 rfl]
  simp [hspk, hlen]

/-- C10 (witness): two concrete cycles with different audio contents of equal
length and different trailing traces produce the same first frame. -/
theorem C10_witness :
    sampleLoads "\x7b\"speaker\": \"Alice\"\x7d" =
      .ok (.obj [("speaker", .str "Alice")]) ∧
    sampleLoads "\x7b\"speaker\": \"Alice\"\x7d" =
      .ok (.obj [("speaker", .str "Alice")]) ∧
    dictGet [("speaker", Json.str "Alice")] "speaker" =
      dictGet [("speaker", Json.str "Alice")] "speaker" ∧
    List.length [10, 20] = List.length [30, 40] ∧
    ((runLoop sampleLoads true
        [.textFrame "\x7b\"speaker\": \"Alice\"\x7d", .bytesFrame [10, 20]]).1.head? =
      (runLoop sampleLoads false
        [.textFrame "\x7b\"speaker\": \"Alice\"\x7d", .bytesFrame [30, 40],
         .disconnect]).1.head? ∧
     (mkResponseData (List.length [10, 20])
        ((dictGet [("speaker", Json.str "Alice")] "speaker").getD (.str "unknown"))).finalText ≠
       "" ∧
     (mkResponseData (List.length [10, 20])
        ((dictGet [("speaker", Json.str "Alice")] "speaker").getD (.str "unknown"))).confidence =
       (0.95 : Rat)) :=
  ⟨rfl, rfl, rfl, rfl,
   C10_thm sampleLoads sampleLoads true false
     "\x7b\"speaker\": \"Alice\"\x7d" "\x7b\"speaker\": \"Alice\"\x7d"
     [("speaker", .str "Alice")] [("speaker", .str "Alice")]
     [10, 20] [30, 40] [] [.disconnect] rfl rfl rfl rfl⟩

end EnsembleSTT
